import Mathlib

/-!
Formal model of the Spotify analytics pipeline.

This file gives a shallow embedding of the data-cleaning, validation,
dashboard-filtering and database-loading code of the repository
(`spotify_analysis.py`, `app.py`, `csv_to_mysql.py`,
`migrate_sqlite_to_mysql.py`) and proves properties of that embedding.

Modelling conventions:
* a pandas `DataFrame` is a list of named columns; each column carries a
  pandas dtype tag and a list of cells;
* `NaN` is the cell `Cell.na`; floating-point values are modelled as
  rationals (no claim below depends on float rounding);
* `pd.to_numeric(..., errors='coerce')` is `toNumeric`: it passes numeric
  dtypes through unchanged and element-wise parses object columns,
  producing `int64` when every cell parses as an integer and `float64`
  otherwise (pandas yields `float64` for an all-`NaN` or empty result);
* the numeric string parser `parseNumStr` accepts an optional sign, an
  integer part and an optional decimal part (scientific notation is not
  modelled; all concrete inputs used below stay inside this fragment);
* database effects are modelled by explicit state: a MySQL connection is
  a pair of committed and pending row lists, and the per-batch insert
  loop of the loaders is the state machine `runLoad`.
-/

namespace Spotify

/-- Pandas column dtypes that occur in this pipeline.  `otherDt` stands for
any dtype other than object/int64/float64/bool (the loaders map it to
`TEXT`). -/
inductive Dtype
  | object
  | int64
  | float64
  | boolDt
  | otherDt
deriving DecidableEq

/-- An exact rational, used to model pandas float values (no claim below
depends on float rounding).  All values produced by the operations of this
file are normalized (coprime numerator and positive denominator), so the
structural equality of `Frac` coincides with numeric equality, the way
float equality does in pandas. -/
structure Frac where
  num : Int
  den : Nat
deriving DecidableEq

/-- Build a normalized fraction (a zero denominator, which no operation
below ever produces, is mapped to zero). -/
def mkFrac (n : Int) (d : Nat) : Frac :=
  if d = 0 then ⟨0, 1⟩
  else
    let g := Nat.gcd n.natAbs d
    ⟨n / (g : Int), d / g⟩

/-- The fraction `n / 1`. -/
def Frac.ofInt (n : Int) : Frac :=
  ⟨n, 1⟩

/-- Negation (a normalized fraction stays normalized). -/
def Frac.neg (a : Frac) : Frac :=
  ⟨-a.num, a.den⟩

/-- Comparison by cross-multiplication. -/
def Frac.le (a b : Frac) : Bool :=
  decide (a.num * (b.den : Int) ≤ b.num * (a.den : Int))

/-- The mean of two fractions (used by the pandas median on an even number
of values). -/
def Frac.avg (a b : Frac) : Frac :=
  mkFrac (a.num * (b.den : Int) + b.num * (a.den : Int)) (a.den * b.den * 2)

/-- One cell of a column: missing (`NaN`), a string, a float (modelled as
an exact rational), an integer, or a boolean. -/
inductive Cell
  | na
  | str (s : String)
  | num (q : Frac)
  | int (n : Int)
  | bool (b : Bool)
deriving DecidableEq

/-- A pandas column: its dtype and its cells. -/
structure Column where
  dtype : Dtype
  cells : List Cell
deriving DecidableEq

/-- A pandas DataFrame: a list of named columns, in column order. -/
structure DataFrame where
  cols : List (String × Column)
deriving DecidableEq

/-- The column labels, in order (`df.columns`). -/
def colNames (df : DataFrame) : List String :=
  df.cols.map (fun p => p.1)

/-- Membership test `name in df.columns`. -/
def hasCol (df : DataFrame) (n : String) : Bool :=
  df.cols.any (fun p => p.1 == n)

/-- Lookup `df[name]`: the first column with the given label, if any. -/
def getCol (df : DataFrame) (n : String) : Option Column :=
  (df.cols.find? (fun p => p.1 == n)).map (fun p => p.2)

/-- Apply a name-dependent transform to every column (labels unchanged). -/
def mapCols (g : String → Column → Column) (df : DataFrame) : DataFrame :=
  ⟨df.cols.map (fun p => (p.1, g p.1 p.2))⟩

/-- Row count `len(df)`: the number of rows (length of the first column). -/
def nRows (df : DataFrame) : Nat :=
  match df.cols with
  | [] => 0
  | p :: _ => p.2.cells.length

/-- Well-formedness: every column has the same number of rows. -/
abbrev Rect (df : DataFrame) : Prop :=
  ∀ p ∈ df.cols, p.2.cells.length = nRows df

/-- The `i`-th row, as the list of the `i`-th cell of each column. -/
def rowAt (df : DataFrame) (i : Nat) : List Cell :=
  df.cols.map (fun p => p.2.cells.getD i Cell.na)

/-- All rows of the frame, in order. -/
def rowsOf (df : DataFrame) : List (List Cell) :=
  (List.range (nRows df)).map (rowAt df)

/-- Value of a list of decimal digit characters. -/
def natOfDigits (l : List Char) : Nat :=
  l.foldl (fun a c => a * 10 + (c.toNat - 48)) 0

/-- Strip leading and trailing whitespace from a character list. -/
def trimChars (l : List Char) : List Char :=
  ((l.dropWhile Char.isWhitespace).reverse.dropWhile Char.isWhitespace).reverse

/-- Numeric parsing of a string, as done by `pd.to_numeric` on a string
element: optional surrounding whitespace, optional sign, digits with an
optional decimal part.  Returns `Cell.int` for integer literals and
`Cell.num` for decimal ones, `none` when the string does not parse. -/
def parseNumStr (s : String) : Option Cell :=
  let cs := trimChars s.toList
  let signed := match cs with
    | '-' :: r => (true, r)
    | '+' :: r => (false, r)
    | r => (false, r)
  let neg := signed.1
  let body := signed.2
  let intPart := body.takeWhile (fun c => c != '.')
  let rest := body.dropWhile (fun c => c != '.')
  if !intPart.all Char.isDigit then none
  else
    match rest with
    | [] =>
      if intPart.isEmpty then none
      else
        let v : Int := Int.ofNat (natOfDigits intPart)
        some (Cell.int (if neg then -v else v))
    | _ :: frac =>
      if !frac.all Char.isDigit then none
      else if intPart.isEmpty && frac.isEmpty then none
      else
        let scale := 10 ^ frac.length
        let v := mkFrac (Int.ofNat (natOfDigits intPart * scale + natOfDigits frac)) scale
        some (Cell.num (if neg then v.neg else v))

/-- Element-wise `pd.to_numeric(x, errors='coerce')` on a cell of an object
column: numbers pass through, booleans become 0/1, strings are parsed,
everything unparseable becomes `NaN`. -/
def toNumericCell : Cell → Cell
  | Cell.na => Cell.na
  | Cell.int n => Cell.int n
  | Cell.num q => Cell.num q
  | Cell.bool b => Cell.int (if b then 1 else 0)
  | Cell.str s => (parseNumStr s).getD Cell.na

/-- Is the cell an integer cell? -/
def isIntCell : Cell → Bool
  | Cell.int _ => true
  | _ => false

/-- Promote an integer cell to a float cell (used when a coerced column
gets dtype `float64`). -/
def intCellToNum : Cell → Cell
  | Cell.int n => Cell.num (Frac.ofInt n)
  | x => x

/-- Coercion `pd.to_numeric(df[col], errors='coerce')` on a whole column.  Columns
of numeric dtype (int64/float64/bool) pass through unchanged; object (and
other) columns are converted element-wise, with resulting dtype `int64`
when every cell parses as an integer and `float64` otherwise. -/
def toNumeric (c : Column) : Column :=
  if c.dtype == Dtype.int64 || c.dtype == Dtype.float64 || c.dtype == Dtype.boolDt then c
  else
    let cells := c.cells.map toNumericCell
    if !cells.isEmpty && cells.all isIntCell then ⟨Dtype.int64, cells⟩
    else ⟨Dtype.float64, cells.map intCellToNum⟩

/-- The numeric value of a cell, if it has one. -/
def cellVal : Cell → Option Frac
  | Cell.int n => some (Frac.ofInt n)
  | Cell.num q => some q
  | Cell.bool b => some (Frac.ofInt (if b then 1 else 0))
  | _ => none

/-- Insert into a sorted list (used by the median). -/
def insertSorted (x : Frac) : List Frac → List Frac
  | [] => [x]
  | y :: ys => if x.le y then x :: y :: ys else y :: insertSorted x ys

/-- Insertion sort on fractions. -/
def sortQ (l : List Frac) : List Frac :=
  l.foldr insertSorted []

/-- Median of a list of fractions, with pandas conventions: `none` when the
list is empty (pandas returns `NaN`), the middle element for odd length,
the mean of the two middle elements for even length. -/
def medianQ (raw : List Frac) : Option Frac :=
  if raw = [] then none
  else
    let vs := sortQ raw
    let n := vs.length
    if n % 2 = 1 then some (vs.getD (n / 2) (Frac.ofInt 0))
    else some (Frac.avg (vs.getD (n / 2 - 1) (Frac.ofInt 0)) (vs.getD (n / 2) (Frac.ofInt 0)))

/-- Column median `df[col].median()`: the median of the non-missing numeric values. -/
def median (c : Column) : Option Frac :=
  medianQ (c.cells.filterMap cellVal)

/-- Imputation `df[col].fillna(m)` for a float fill value `m`. -/
def fillWithNum (m : Frac) (c : Column) : Column :=
  ⟨c.dtype, c.cells.map (fun x => if x == Cell.na then Cell.num m else x)⟩

/-- One iteration of step 3 of `clean_data` on a present candidate column:
coerce to numeric, then fill `NaN`s with the column median when the median
is defined (it is undefined exactly when the coerced column has no numeric
values at all). -/
def coerceFill (c : Column) : Column :=
  let c2 := toNumeric c
  match median c2 with
  | some m => fillWithNum m c2
  | none => c2

/-- One iteration of step 5 of `clean_data` on a present audio-feature
column: re-coerce; if any value is missing, fill with the median (filling
with a `NaN` median is a no-op, as in pandas). -/
def audioFix (c : Column) : Column :=
  let c2 := toNumeric c
  if Cell.na ∈ c2.cells then
    match median c2 with
    | some m => fillWithNum m c2
    | none => c2
  else c2

/-- Text fill `df[col].fillna('Unknown')` (step 2 of `clean_data`).  When the column
contains missing values the result has dtype object (pandas upcasts a
float column on string fill); otherwise the column is unchanged. -/
def fillUnknown (c : Column) : Column :=
  if Cell.na ∈ c.cells then
    ⟨Dtype.object, c.cells.map (fun x => if x == Cell.na then Cell.str "Unknown" else x)⟩
  else c

/-- The sample of the promotion heuristic:
`df[col].dropna().astype(str).head(20)`. -/
def sampleCells (c : Column) : List Cell :=
  (c.cells.filter (fun x => x != Cell.na)).take 20

/-- Does a sampled cell survive `pd.to_numeric(sample, errors='coerce')`
(after `astype(str)`)?  Numeric cells always re-parse from their string
form, `'True'`/`'False'` do not. -/
def cellParses : Cell → Bool
  | Cell.str s => (parseNumStr s).isSome
  | Cell.num _ => true
  | Cell.int _ => true
  | Cell.bool _ => false
  | Cell.na => false

/-- Count `coerced.notna().sum()` over the heuristic sample. -/
def parseCount (c : Column) : Nat :=
  (sampleCells c).countP cellParses

/-- The promotion test of `clean_data` step 3 for a column outside the
declared candidate list: object dtype, non-empty sample, and at least
`max(1, len(sample) // 2)` of the sampled values parse as numbers. -/
def promotes (c : Column) : Bool :=
  c.dtype == Dtype.object &&
    !(sampleCells c).isEmpty &&
    decide (parseCount c ≥ max 1 ((sampleCells c).length / 2))

/-- The declared numeric candidate columns of `clean_data`. -/
def numericCandidatesBase : List String :=
  ["danceability", "energy", "loudness", "speechiness", "acousticness",
   "instrumentalness", "liveness", "valence", "tempo", "duration_ms",
   "key", "mode", "time_signature", "popularity"]

/-- The audio-feature columns re-checked in step 5 of `clean_data`. -/
def audioFeatures : List String :=
  ["danceability", "energy", "valence", "loudness", "speechiness",
   "acousticness", "instrumentalness", "liveness"]

/-- The text identity columns filled with `'Unknown'` in step 2. -/
def textCols : List String :=
  ["artists", "album_name", "track_name"]

/-- Mask of first occurrences: an entry is `true` when its element has not
appeared earlier (and is not in `seen`).  This is the complement of pandas
`duplicated()`. -/
def keepFirstGo {α : Type} [DecidableEq α] (seen : List α) : List α → List Bool
  | [] => []
  | x :: xs =>
    decide (x ∉ seen) :: keepFirstGo (if x ∈ seen then seen else x :: seen) xs

/-- First-occurrence mask of a list (pandas keeps the first of each group
of duplicates; pandas treats `NaN` keys as equal to each other, which the
structural equality of `Cell` reproduces). -/
def keepFirstMask {α : Type} [DecidableEq α] (l : List α) : List Bool :=
  keepFirstGo [] l

/-- Keep the elements whose mask entry is `true`. -/
def maskFilter {α : Type} : List Bool → List α → List α
  | b :: bs, x :: xs => if b then x :: maskFilter bs xs else maskFilter bs xs
  | _, _ => []

/-- Boolean-mask row selection applied to every column. -/
def filterRowsBy (df : DataFrame) (mask : List Bool) : DataFrame :=
  mapCols (fun _ c => ⟨c.dtype, maskFilter mask c.cells⟩) df

/-- Sequential composition of two row masks: the second mask applies to
the rows the first mask keeps (used to relate the dashboard's chained
boolean-mask selections to a single combined selection). -/
def maskSeq : List Bool → List Bool → List Bool
  | [], _ => []
  | false :: m1, m2 => false :: maskSeq m1 m2
  | true :: m1, [] => false :: maskSeq m1 []
  | true :: m1, b :: m2 => b :: maskSeq m1 m2

/-- Step 1 of `clean_data`: drop the `'Unnamed: 0'` column if present. -/
def step1 (df : DataFrame) : DataFrame :=
  if hasCol df "Unnamed: 0" then ⟨df.cols.filter (fun p => p.1 != "Unnamed: 0")⟩
  else df

/-- Step 2 of `clean_data`: fill missing artists / album_name / track_name
with `'Unknown'` (columns that are absent are skipped). -/
def step2 (df : DataFrame) : DataFrame :=
  mapCols (fun n c => if textCols.contains n then fillUnknown c else c) df

/-- The columns promoted by the heuristic of step 3: object columns outside
the declared list whose sample is majority-parseable in the code's sense. -/
def promotedCols (df : DataFrame) : List String :=
  (df.cols.filter (fun p => !(numericCandidatesBase.contains p.1) && promotes p.2)).map
    (fun p => p.1)

/-- The full `numeric_candidates` list after the heuristic loop. -/
def candidatesOf (df : DataFrame) : List String :=
  numericCandidatesBase ++ promotedCols df

/-- Step 3 of `clean_data`: coerce every candidate column to numeric and
fill missing values with the column median (when defined). -/
def step3 (df : DataFrame) : DataFrame :=
  mapCols (fun n c => if (candidatesOf df).contains n then coerceFill c else c) df

/-- Step 4 of `clean_data`: drop duplicate rows, by `track_id` when that
column exists and by full-row equality otherwise (keeping first
occurrences, as `drop_duplicates` does). -/
def step4 (df : DataFrame) : DataFrame :=
  match getCol df "track_id" with
  | some c => filterRowsBy df (keepFirstMask c.cells)
  | none => filterRowsBy df (keepFirstMask (rowsOf df))

/-- Step 5 of `clean_data`: defensively re-coerce and re-impute the fixed
audio-feature columns. -/
def step5 (df : DataFrame) : DataFrame :=
  mapCols (fun n c => if audioFeatures.contains n then audioFix c else c) df

/-- The function `clean_data` from `spotify_analysis.py`: the five cleaning steps in
source order (the initial `df.copy()` is invisible to a value-level model;
it is modelled explicitly by `clean_data_prog` below). -/
def clean_data (df : DataFrame) : DataFrame :=
  step5 (step4 (step3 (step2 (step1 df))))

/-- Is a dtype numeric in the sense of `pd.api.types.is_numeric_dtype`
(int64, float64 and bool are; object and other dtypes are not)? -/
def isNumericDtype : Dtype → Bool
  | Dtype.object => false
  | Dtype.otherDt => false
  | _ => true

/-- Missing count `df[col].isnull().sum()`. -/
def countNA (c : Column) : Nat :=
  c.cells.countP (fun x => x == Cell.na)

/-- Count `series.duplicated().sum()`: the number of entries equal to an earlier
entry. -/
def dupCount {α : Type} [DecidableEq α] (l : List α) : Nat :=
  (keepFirstMask l).countP (fun b => b == false)

/-- The issue strings of the quality report, as an abstract datatype (the
exact formatted text carries no extra information). -/
inductive Issue
  | dupTracks (n : Nat)
  | missingCol (name : String) (n : Nat)
  | nonNumericAudio (names : List String)
  | unnamedPresent
  | passed
deriving DecidableEq

/-- The quality report of `validate_cleaned_data`. -/
structure Report where
  total_rows : Nat
  total_columns : Nat
  missing_values : List (String × Nat)
  duplicates : Nat
  duplicate_tracks : Nat
  column_types : List (String × Dtype)
  issues : List Issue
deriving DecidableEq

/-- The critical columns checked for missing values by the report. -/
def criticalCols : List String :=
  ["track_id", "artists", "track_name", "popularity"]

/-- The audio-feature columns whose dtype the report checks (this list
additionally contains `tempo`). -/
def audioFeaturesValidate : List String :=
  ["danceability", "energy", "valence", "loudness", "speechiness",
   "acousticness", "instrumentalness", "liveness", "tempo"]

/-- Missing-value count of a named column, `0` when the column is absent. -/
def missingOf (df : DataFrame) (n : String) : Nat :=
  match getCol df n with
  | some c => countNA c
  | none => 0

/-- The function `validate_cleaned_data` from `spotify_analysis.py`. -/
def validate_cleaned_data (df : DataFrame) : Report :=
  let dupTrackCount :=
    match getCol df "track_id" with
    | some c => dupCount c.cells
    | none => 0
  let i1 :=
    match getCol df "track_id" with
    | some c => if dupCount c.cells > 0 then [Issue.dupTracks (dupCount c.cells)] else []
    | none => []
  let i2 := criticalCols.filterMap (fun n =>
    match getCol df n with
    | some c => if countNA c > 0 then some (Issue.missingCol n (countNA c)) else none
    | none => none)
  let nonNumeric := audioFeaturesValidate.filter (fun n =>
    match getCol df n with
    | some c => !(isNumericDtype c.dtype)
    | none => false)
  let i3 := if nonNumeric.isEmpty then [] else [Issue.nonNumericAudio nonNumeric]
  let i4 := if hasCol df "Unnamed: 0" then [Issue.unnamedPresent] else []
  let allIssues := i1 ++ i2 ++ i3 ++ i4
  { total_rows := nRows df
    total_columns := df.cols.length
    missing_values := df.cols.map (fun p => (p.1, countNA p.2))
    duplicates := dupCount (rowsOf df)
    duplicate_tracks := dupTrackCount
    column_types := df.cols.map (fun p => (p.1, p.2.dtype))
    issues := if allIssues.isEmpty then [Issue.passed] else allIssues }

/-- Equality `cell == genre` as evaluated by pandas `df['track_genre'] == g`:
true exactly for an equal string; `NaN` and non-string values compare
unequal. -/
def cellEqStr (g : String) : Cell → Bool
  | Cell.str s => s == g
  | _ => false

/-- Comparison `cell >= a` on the popularity column (missing and non-numeric cells
fail the comparison). -/
def cellGeQ (x : Cell) (a : Frac) : Bool :=
  match cellVal x with
  | some v => a.le v
  | none => false

/-- Comparison `cell <= b` on the popularity column. -/
def cellLeQ (x : Cell) (b : Frac) : Bool :=
  match cellVal x with
  | some v => v.le b
  | none => false

/-- Infix occurrence test on lists (substring search). -/
def listSub {α : Type} [DecidableEq α] (needle : List α) : List α → Bool
  | [] => decide (needle = [])
  | x :: t => needle.isPrefixOf (x :: t) || listSub needle t

/-- Match `df['artists'].str.contains(sub, case=False, na=False)` on one cell. -/
def cellContainsCI (sub : String) : Cell → Bool
  | Cell.str s => listSub sub.toLower.toList s.toLower.toList
  | _ => false

/-- Filter the frame by a predicate evaluated on a named column (boolean
mask selection `df[df[col].map(p)]`); `none` when the column is absent
(pandas raises `KeyError`). -/
def filterOnCol (df : DataFrame) (n : String) (p : Cell → Bool) : Option DataFrame :=
  (getCol df n).map (fun c => filterRowsBy df (c.cells.map p))

/-- The sidebar filter of `app.py` (lines 119-124): genre equality unless
the sentinel `"All"` is selected, then case-insensitive artist substring
match unless the search box is empty, then the inclusive popularity
range. -/
def dashboardFilter (df : DataFrame) (selectedGenre artistSearch : String)
    (lo hi : Frac) : Option DataFrame :=
  let d1 := if selectedGenre != "All"
    then filterOnCol df "track_genre" (cellEqStr selectedGenre)
    else some df
  match d1 with
  | none => none
  | some e1 =>
    let d2 := if artistSearch != ""
      then filterOnCol e1 "artists" (cellContainsCI artistSearch)
      else some e1
    match d2 with
    | none => none
    | some e2 => filterOnCol e2 "popularity" (fun x => cellGeQ x lo && cellLeQ x hi)

/-- Conversion `None if pd.isna(v) else v`: the value placed into the SQL insert
tuple. -/
def pyCell (v : Cell) : Option Cell :=
  if v == Cell.na then none else some v

/-- A MySQL connection as seen by the loaders: rows already committed and
rows inserted in the open transaction. -/
structure MySQLState where
  committed : List (List (Option Cell))
  pending : List (List (Option Cell))
deriving DecidableEq

instance exceptDecEq {ε α : Type} [DecidableEq ε] [DecidableEq α] :
    DecidableEq (Except ε α)
  | Except.ok x, Except.ok y =>
    if h : x = y then Decidable.isTrue (by rw [h])
    else Decidable.isFalse (fun hh => h (Except.ok.inj hh))
  | Except.ok _, Except.error _ => Decidable.isFalse (fun hh => Except.noConfusion hh)
  | Except.error _, Except.ok _ => Decidable.isFalse (fun hh => Except.noConfusion hh)
  | Except.error x, Except.error y =>
    if h : x = y then Decidable.isTrue (by rw [h])
    else Decidable.isFalse (fun hh => h (Except.error.inj hh))

/-- Statement `cursor.execute(insert_sql, values)`: adds the row to the open
transaction. -/
def execInsert (st : MySQLState) (r : List (Option Cell)) : MySQLState :=
  { st with pending := st.pending ++ [r] }

/-- Commit `conn.commit()`. -/
def commitConn (st : MySQLState) : MySQLState :=
  { committed := st.committed ++ st.pending, pending := [] }

/-- Rollback `conn.rollback()`. -/
def rollbackConn (st : MySQLState) : MySQLState :=
  { st with pending := [] }

/-- The inner loop over one batch: execute each row's insert; an insert
error (as decided by the oracle `fails`) aborts immediately, carrying the
connection state out to the exception handler. -/
def runBatch (fails : List (Option Cell) → Bool) (st : MySQLState) :
    List (List (Option Cell)) → Except MySQLState MySQLState
  | [] => Except.ok st
  | r :: rs =>
    if fails r then Except.error st
    else runBatch fails (execInsert st r) rs

/-- The outer loop over the batches: each completed batch is committed; a
failing batch is rolled back and the error re-raised (modelled by the
`Except.error` result, which carries the final connection state). -/
def runLoad (fails : List (Option Cell) → Bool) (st : MySQLState) :
    List (List (List (Option Cell))) → Except MySQLState MySQLState
  | [] => Except.ok st
  | b :: bs =>
    match runBatch fails st b with
    | Except.ok st2 => runLoad fails (commitConn st2) bs
    | Except.error st2 => Except.error (rollbackConn st2)

/-- Fuelled worker for `chunksOf` (the fuel keeps the recursion structural,
so that the function evaluates under `decide`; `chunksOf` supplies fuel
equal to the list length, which is always enough). -/
def chunksGo {α : Type} (n : Nat) : Nat → List α → List (List α)
  | _, [] => []
  | 0, l => [l]
  | fuel + 1, x :: xs => (x :: xs.take n) :: chunksGo n fuel (xs.drop n)

/-- Split a list into chunks of `n + 1` elements; the loaders use
`batch_size = 1000`, i.e. `chunksOf 999`. -/
def chunksOf {α : Type} (n : Nat) (l : List α) : List (List α) :=
  chunksGo n l.length l

/-- The insert tuples of the frame, in row order (`NaN` becomes SQL
`NULL`). -/
def loadRows (df : DataFrame) : List (List (Option Cell)) :=
  (rowsOf df).map (fun r => r.map pyCell)

/-- The batches of 1000 rows formed by the insert loop. -/
def loadBatches (df : DataFrame) : List (List (List (Option Cell))) :=
  chunksOf 999 (loadRows df)

/-- The insert phase of `load_csv_to_mysql` (and of the structurally
identical `migrate_to_mysql`): insert the frame's rows in batches of 1000
on a fresh connection state, committing after each batch; an insert error
rolls the open batch back and re-raises.  The preceding DROP/CREATE
statements touch no rows and are omitted. -/
def load_csv_to_mysql (fails : List (Option Cell) → Bool) (df : DataFrame) :
    Except MySQLState MySQLState :=
  runLoad fails ⟨[], []⟩ (loadBatches df)

/-- MySQL column types produced by the loaders. -/
inductive SqlType
  | varchar (n : Nat)
  | bigint
  | double
  | boolean
  | text
deriving DecidableEq

/-- Stringified length `len(str(v))` for a cell, as computed by `astype(str).str.len()`
(`NaN` stringifies to `'nan'`).  The float case is an approximation of
Python's float repr length — no theorem below depends on it, since the
claims only speak about observed string values. -/
def cellStrLen : Cell → Nat
  | Cell.str s => s.length
  | Cell.na => 3
  | Cell.int n => (toString n).length
  | Cell.num q => (toString q.num).length + 1 + (toString q.den).length
  | Cell.bool b => if b then 4 else 5

/-- Maximum `df[col].astype(str).str.len().max()`: `none` on an empty column
(pandas yields `NaN` there and the loader's `int(max_len)` raises). -/
def maxLenOf (cells : List Cell) : Option Nat :=
  match cells with
  | [] => none
  | _ => some ((cells.map cellStrLen).foldl Nat.max 0)

/-- The column-type inference inlined in `load_csv_to_mysql` (lines
96-110 of `csv_to_mysql.py`): object columns become
`VARCHAR(min(max(max_len + 100, 255), 65535))`, int64 becomes BIGINT,
float64 DOUBLE, bool BOOLEAN, anything else TEXT. -/
def colDefFor (c : Column) : Option SqlType :=
  match c.dtype with
  | Dtype.object =>
    (maxLenOf c.cells).map (fun m => SqlType.varchar (min (max (m + 100) 255) 65535))
  | Dtype.int64 => some SqlType.bigint
  | Dtype.float64 => some SqlType.double
  | Dtype.boolDt => some SqlType.boolean
  | Dtype.otherDt => some SqlType.text

/-- The helper `infer_mysql_type` of `csv_to_mysql.py` (lines 72-84).  It
is defined but never called by `load_csv_to_mysql`, which re-implements
the mapping inline with different VARCHAR bounds; it is modelled here for
completeness. -/
def infer_mysql_type (dt : Dtype) (maxLen : Option Nat) : SqlType :=
  match dt with
  | Dtype.object =>
    match maxLen with
    | some m => if m ≠ 0 then SqlType.varchar (min (max (m + 10) 50) 500) else SqlType.varchar 255
    | none => SqlType.varchar 255
  | Dtype.int64 => SqlType.bigint
  | Dtype.float64 => SqlType.double
  | Dtype.boolDt => SqlType.boolean
  | Dtype.otherDt => SqlType.text

/-- The column-type inference inlined in `migrate_to_mysql` (lines 93-106
of `migrate_sqlite_to_mysql.py`): identical to the CSV loader's mapping
except that object columns become
`VARCHAR(min(max(max_len + 10, 50), 500))`. -/
def colDefForMigrate (c : Column) : Option SqlType :=
  match c.dtype with
  | Dtype.object =>
    (maxLenOf c.cells).map (fun m => SqlType.varchar (min (max (m + 10) 50) 500))
  | Dtype.int64 => some SqlType.bigint
  | Dtype.float64 => some SqlType.double
  | Dtype.boolDt => some SqlType.boolean
  | Dtype.otherDt => some SqlType.text

/-- The function `read_sqlite` of `migrate_sqlite_to_mysql.py`: the body first runs
`pd.read_csv(db_path.replace('.db', '.csv'))` (whose result value is then
overwritten) and then `pd.read_sql(...)`.  Each read is modelled by its
outcome: `none` when the call raises, `some t` when it returns table `t`.
The function propagates a CSV-read exception and otherwise returns the
SQLite read's outcome. -/
def read_sqlite (csvRead : Option DataFrame) (sqliteRead : Option DataFrame) :
    Option DataFrame :=
  match csvRead with
  | none => none
  | some _ => sqliteRead

/-- A heap of Python DataFrame objects, addressed by allocation index. -/
abbrev Heap : Type := List DataFrame

/-- Dereference a heap reference. -/
def heapRead (h : Heap) (r : Nat) : DataFrame :=
  h.getD r ⟨[]⟩

/-- Allocate a fresh DataFrame object, returning its reference. -/
def heapAlloc (h : Heap) (d : DataFrame) : Nat × Heap :=
  (List.length h, h ++ [d])

/-- Overwrite the object at an existing reference (in-place mutation,
`df[col] = ...`). -/
def heapWrite (h : Heap) (r : Nat) (d : DataFrame) : Heap :=
  h.set r d

/-- The function `clean_data` as it acts on the Python heap: `df = df.copy()` allocates
a fresh object; `df.drop(...)` and `df.drop_duplicates(...)` return new
objects that the local name is rebound to; the `df[col] = ...` statements
of steps 2, 3 and 5 mutate the working object in place.  Returns the
reference holding the result together with the final heap. -/
def clean_data_prog (h0 : Heap) (r0 : Nat) : Nat × Heap :=
  let a1 := heapAlloc h0 (heapRead h0 r0)
  let r1 := a1.1
  let h1 := a1.2
  let a2 := if hasCol (heapRead h1 r1) "Unnamed: 0"
    then heapAlloc h1 (step1 (heapRead h1 r1))
    else (r1, h1)
  let r2 := a2.1
  let h2 := a2.2
  let h3 := heapWrite h2 r2 (step2 (heapRead h2 r2))
  let h4 := heapWrite h3 r2 (step3 (heapRead h3 r2))
  let a3 := heapAlloc h4 (step4 (heapRead h4 r2))
  let r3 := a3.1
  let h5 := a3.2
  let h6 := heapWrite h5 r3 (step5 (heapRead h5 r3))
  (r3, h6)

/-- The strict-majority reading of the promotion heuristic, as the spec
sentence states it ("a majority of the sample parses as numbers"). -/
abbrev specMajority (c : Column) : Prop :=
  2 * parseCount c > (sampleCells c).length

/-!
Concrete inputs used by the counterexamples and witnesses below.
-/

/-- A frame whose `danceability` column has no parseable value: its median
is undefined, so imputation is skipped and the missing value survives
cleaning. -/
def dfC1cex : DataFrame :=
  ⟨[("danceability", ⟨Dtype.object, [Cell.str "abc"]⟩)]⟩

/-- A frame with one parseable and one missing `energy` value. -/
def dfC1w : DataFrame :=
  ⟨[("energy", ⟨Dtype.object, [Cell.str "0.5", Cell.na]⟩)]⟩

/-- A frame with duplicate and missing `track_id` values. -/
def dfC2w : DataFrame :=
  ⟨[("track_id", ⟨Dtype.object, [Cell.str "a", Cell.na, Cell.str "a", Cell.na]⟩)]⟩

/-- A single text column on which cleaning is not idempotent: the first
pass drops two duplicate rows, which flips the 20-value promotion sample
of the second pass from minority-parseable (1 of 4) to
threshold-parseable (1 of 2), so the second pass coerces, imputes and
deduplicates further. -/
def dfC3bug : DataFrame :=
  ⟨[("c", ⟨Dtype.object, [Cell.str "x", Cell.str "x", Cell.str "x", Cell.str "5"]⟩)]⟩

/-- A frame with exactly one duplicated identifier and one missing critical
value, but also a non-numeric audio-feature column. -/
def dfC4cex : DataFrame :=
  ⟨[("track_id", ⟨Dtype.object, [Cell.str "a", Cell.str "a", Cell.str "b"]⟩),
    ("artists", ⟨Dtype.object, [Cell.str "x", Cell.na, Cell.str "y"]⟩),
    ("danceability", ⟨Dtype.object, [Cell.str "q", Cell.str "r", Cell.str "s"]⟩)]⟩

/-- A frame engineered to contain exactly one duplicated identifier and one
missing critical value and no other defect. -/
def dfC4w : DataFrame :=
  ⟨[("track_id", ⟨Dtype.object, [Cell.str "a", Cell.str "a", Cell.str "b"]⟩),
    ("artists", ⟨Dtype.object, [Cell.str "x", Cell.na, Cell.str "y"]⟩),
    ("popularity", ⟨Dtype.int64, [Cell.int 5, Cell.int 6, Cell.int 7]⟩)]⟩

/-- A frame containing a genre literally named `"All"`, the sidebar's
sentinel for "no genre filter". -/
def dfC5cex : DataFrame :=
  ⟨[("track_genre", ⟨Dtype.object, [Cell.str "All", Cell.str "rock"]⟩),
    ("popularity", ⟨Dtype.int64, [Cell.int 50, Cell.int 50]⟩)]⟩

/-- Genres of the 100-row filter example: 30 pop rows in range, 20 pop rows
below the range, 50 rock rows. -/
def genreCells100 : List Cell :=
  List.replicate 30 (Cell.str "pop") ++ List.replicate 20 (Cell.str "pop") ++
    List.replicate 50 (Cell.str "rock")

/-- Popularity scores of the 100-row filter example. -/
def popCells100 : List Cell :=
  List.replicate 30 (Cell.int 50) ++ List.replicate 20 (Cell.int 5) ++
    List.replicate 50 (Cell.int 60)

/-- The 100-row example of the spec: exactly 30 rows have genre `"pop"`
and popularity at least 20. -/
def df100 : DataFrame :=
  ⟨[("track_genre", ⟨Dtype.object, genreCells100⟩),
    ("popularity", ⟨Dtype.int64, popCells100⟩)]⟩

/-- A 1100-row frame used to exercise the two-batch insert behaviour. -/
def dfC6w : DataFrame :=
  ⟨[("i", ⟨Dtype.int64, (List.range 1100).map (fun i => Cell.int i)⟩)]⟩

/-- An insert-failure oracle that fails exactly on the row holding 1050
(a row of the second batch of `dfC6w`). -/
def failsC6 (r : List (Option Cell)) : Bool :=
  r == [some (Cell.int 1050)]

/-- An object column whose sample is only minority-parseable (1 of 3) yet
meets the code's `max(1, n // 2)` threshold. -/
def dfC7cex : DataFrame :=
  ⟨[("c", ⟨Dtype.object, [Cell.str "1", Cell.str "a", Cell.str "b"]⟩)]⟩

/-- An object column all of whose values parse. -/
def colC7w : Column :=
  ⟨Dtype.object, [Cell.str "1", Cell.str "2"]⟩

/-- A frame holding `colC7w` under a name outside the declared candidate
list. -/
def dfC7w : DataFrame :=
  ⟨[("score", colC7w)]⟩

/-- A string value longer than the 500-character VARCHAR cap of the
SQLite-to-MySQL migration loader. -/
def longStrC8 : String :=
  String.mk (List.replicate 600 'a')

/-- An object column observing a string longer than the migration loader's
500-character VARCHAR cap. -/
def colC8cex : Column :=
  ⟨Dtype.object, [Cell.str longStrC8]⟩

/-- A small object column for the sink-typing witness. -/
def colC8w : Column :=
  ⟨Dtype.object, [Cell.str "hi", Cell.na]⟩

/-- A one-row table standing for the SQLite table read by the migration. -/
def dfC9 : DataFrame :=
  ⟨[("a", ⟨Dtype.int64, [Cell.int 1]⟩)]⟩

/-- A one-frame heap for the mutation witness. -/
def heapC10 : Heap :=
  [⟨[("Unnamed: 0", ⟨Dtype.int64, [Cell.int 0, Cell.int 0]⟩),
     ("track_id", ⟨Dtype.object, [Cell.str "a", Cell.str "a"]⟩)]⟩]

/-!
### Basic lemmas about the frame operations
-/

theorem find_map_pair (g : String → Column → Column) (n : String) :
    ∀ l : List (String × Column),
      (l.map (fun p => (p.1, g p.1 p.2))).find? (fun p => p.1 == n) =
        (l.find? (fun p => p.1 == n)).map (fun p => (p.1, g p.1 p.2))
  | [] => rfl
  | p :: ps => by
    simp only [List.map_cons, List.find?_cons]
    cases hb : (p.1 == n) with
    | true => simp [hb]
    | false => simp [hb, find_map_pair g n ps]

theorem getCol_mapCols (g : String → Column → Column) (df : DataFrame) (n : String) :
    getCol (mapCols g df) n = (getCol df n).map (g n) := by
  show ((df.cols.map (fun p => (p.1, g p.1 p.2))).find? (fun p => p.1 == n)).map
      (fun p => p.2) =
    ((df.cols.find? (fun p => p.1 == n)).map (fun p => p.2)).map (g n)
  rw [find_map_pair]
  cases h : df.cols.find? (fun p => p.1 == n) with
  | none => rfl
  | some p =>
    have hp := List.find?_some h
    have hn : p.1 = n := by simpa using hp
    show some (g p.1 p.2) = some (g n p.2)
    rw [hn]

theorem getCol_isSome (df : DataFrame) (n : String) :
    (getCol df n).isSome = hasCol df n := by
  show ((df.cols.find? (fun p => p.1 == n)).map (fun p => p.2)).isSome =
    df.cols.any (fun p => p.1 == n)
  rw [Option.isSome_map']
  rw [Bool.eq_iff_iff]
  simp [List.find?_isSome, List.any_eq_true]

theorem find_filter_ne (m n : String) (h : ¬(n = m)) :
    ∀ l : List (String × Column),
      (l.filter (fun p => p.1 != m)).find? (fun p => p.1 == n) =
        l.find? (fun p => p.1 == n)
  | [] => rfl
  | p :: ps => by
    by_cases hm : p.1 = m
    · have h2 : (p.1 == n) = false := by
        refine beq_eq_false_iff_ne.mpr (fun e => h ?_)
        rw [← e, hm]
      rw [List.filter_cons_of_neg (by simp [hm]),
        List.find?_cons_of_neg _ (by simp [h2])]
      exact find_filter_ne m n h ps
    · rw [List.filter_cons_of_pos (by simp [hm])]
      simp only [List.find?_cons]
      cases hb : (p.1 == n) with
      | true => rfl
      | false => exact find_filter_ne m n h ps

theorem getCol_step1 (df : DataFrame) (n : String) (h : ¬(n = "Unnamed: 0")) :
    getCol (step1 df) n = getCol df n := by
  unfold step1
  cases hc : hasCol df "Unnamed: 0" with
  | false => simp
  | true =>
    simp only [if_pos rfl]
    show ((df.cols.filter (fun p => p.1 != "Unnamed: 0")).find?
        (fun p => p.1 == n)).map (fun p => p.2) = getCol df n
    rw [find_filter_ne _ _ h]
    rfl

/-!
### Lemmas about coercion, medians and imputation
-/

theorem fillWithNum_dtype (m : Frac) (c : Column) :
    (fillWithNum m c).dtype = c.dtype := rfl

theorem toNumeric_dtype_numeric (c : Column) :
    isNumericDtype (toNumeric c).dtype = true := by
  unfold toNumeric
  split
  · next h =>
    simp only [Bool.or_eq_true, beq_iff_eq] at h
    rcases h with (h | h) | h <;> rw [h] <;> decide
  · dsimp only
    split <;> rfl

theorem fillWithNum_cells_ne_na (m : Frac) (c : Column) :
    ∀ x ∈ (fillWithNum m c).cells, x ≠ Cell.na := by
  intro x hx
  rcases List.mem_map.mp hx with ⟨y, _, rfl⟩
  cases hb : (y == Cell.na) with
  | true => simp [hb]
  | false =>
    simp only [hb, if_false, Bool.false_eq_true, if_neg]
    exact beq_eq_false_iff_ne.mp hb

theorem median_none_iff (c : Column) :
    median c = none ↔ c.cells.filterMap cellVal = [] := by
  unfold median medianQ
  by_cases h : c.cells.filterMap cellVal = []
  · simp [h]
  · simp only [if_neg h]
    constructor
    · intro hcon
      split at hcon <;> exact Option.noConfusion hcon
    · intro hh
      exact absurd hh h

theorem audioFix_eq (c : Column) :
    audioFix c =
      if Cell.na ∈ (toNumeric c).cells then
        match median (toNumeric c) with
        | some m => fillWithNum m (toNumeric c)
        | none => toNumeric c
      else toNumeric c := rfl

theorem audioFix_dtype_numeric (c : Column) :
    isNumericDtype (audioFix c).dtype = true := by
  rw [audioFix_eq]
  by_cases hna : Cell.na ∈ (toNumeric c).cells
  · rw [if_pos hna]
    cases hm : median (toNumeric c) with
    | some m =>
      show isNumericDtype (fillWithNum m (toNumeric c)).dtype = true
      rw [fillWithNum_dtype]
      exact toNumeric_dtype_numeric c
    | none => exact toNumeric_dtype_numeric c
  · rw [if_neg hna]
    exact toNumeric_dtype_numeric c

theorem audioFix_complete_or_empty (c : Column) :
    (∀ x ∈ (audioFix c).cells, x ≠ Cell.na) ∨
      (∀ x ∈ (audioFix c).cells, cellVal x = none) := by
  rw [audioFix_eq]
  by_cases hna : Cell.na ∈ (toNumeric c).cells
  · rw [if_pos hna]
    cases hm : median (toNumeric c) with
    | some m => exact Or.inl (fillWithNum_cells_ne_na m _)
    | none =>
      refine Or.inr (fun x hx => ?_)
      have hraw := (median_none_iff _).mp hm
      exact List.filterMap_eq_nil_iff.mp hraw x hx
  · rw [if_neg hna]
    exact Or.inl (fun x hx hxna => hna (hxna ▸ hx))

/-!
### C1: completeness of the audio-feature columns after cleaning
-/

/-- C1, counterexample to the claim as stated: on a table whose
`danceability` column has no parseable value at all, `clean_data` leaves
the column entirely missing (the median is undefined, so both imputation
passes are skipped), so "zero missing values" is false. -/
theorem C1_counterexample :
    getCol (clean_data dfC1cex) "danceability" =
      some ⟨Dtype.float64, [Cell.na]⟩ := by decide

/-- C1 (amended): after `clean_data`, every declared audio-feature column
present in the table has numeric dtype, and it either contains zero
missing values or contains no numeric value at all (an entirely-missing
column, on which the median is undefined and imputation is skipped). -/
theorem C1_audio_numeric_complete (df : DataFrame) (f : String) (col2 : Column)
    (hf : audioFeatures.contains f = true)
    (h : getCol (clean_data df) f = some col2) :
    isNumericDtype col2.dtype = true ∧
      ((∀ x ∈ col2.cells, x ≠ Cell.na) ∨ (∀ x ∈ col2.cells, cellVal x = none)) := by
  unfold clean_data step5 at h
  rw [getCol_mapCols] at h
  cases hg : getCol (step4 (step3 (step2 (step1 df)))) f with
  | none => rw [hg] at h; exact absurd h (by simp)
  | some c =>
    rw [hg] at h
    simp only [Option.map_some', hf, if_pos] at h
    cases h
    exact ⟨audioFix_dtype_numeric c, audioFix_complete_or_empty c⟩

/-- C1 witness: the amended theorem applied to a concrete table with one
parseable and one missing `energy` value. -/
theorem C1_witness :
    isNumericDtype (Column.mk Dtype.float64 [Cell.num (mkFrac 1 2)]).dtype = true ∧
      ((∀ x ∈ (Column.mk Dtype.float64 [Cell.num (mkFrac 1 2)]).cells, x ≠ Cell.na) ∨
        (∀ x ∈ (Column.mk Dtype.float64 [Cell.num (mkFrac 1 2)]).cells,
          cellVal x = none)) :=
  C1_audio_numeric_complete dfC1w "energy" _ (by decide) (by decide)

/-!
### C3: the cleaning transform is not idempotent
-/

/-- C3: `clean_data` is not idempotent, although its docstring and the spec
promise it.  On `dfC3bug` the first pass only deduplicates (the 4-element
promotion sample of column `c` is minority-parseable, 1 of 4, below the
`max(1, 4 // 2) = 2` threshold); on the already-cleaned 2-row result the
sample is 1 of 2 and meets the `max(1, 2 // 2) = 1` threshold, so the
second pass coerces the column to numeric, imputes the unparseable value
with the median 5, and then deduplicates the now-equal rows: the second
pass drops a further row and applies further fills. -/
theorem C3_clean_data_not_idempotent :
    clean_data dfC3bug = ⟨[("c", ⟨Dtype.object, [Cell.str "x", Cell.str "5"]⟩)]⟩ ∧
      clean_data (clean_data dfC3bug) =
        ⟨[("c", ⟨Dtype.float64, [Cell.num (Frac.ofInt 5)]⟩)]⟩ ∧
      clean_data (clean_data dfC3bug) ≠ clean_data dfC3bug := by decide

/-!
### C8: SQL column types inferred by the MySQL loader
-/

theorem foldl_max_le_init : ∀ (l : List Nat) (a : Nat), a ≤ l.foldl Nat.max a
  | [], a => Nat.le_refl a
  | x :: xs, a => Nat.le_trans (Nat.le_max_left a x) (foldl_max_le_init xs (Nat.max a x))

theorem mem_le_foldl_max : ∀ (l : List Nat) (a : Nat), ∀ x ∈ l, x ≤ l.foldl Nat.max a
  | [], _, y, hy => absurd hy (List.not_mem_nil y)
  | x :: xs, a, y, hy => by
    rcases List.mem_cons.mp hy with rfl | hy2
    · exact Nat.le_trans (Nat.le_max_right a y) (foldl_max_le_init xs (Nat.max a y))
    · exact mem_le_foldl_max xs (Nat.max a x) y hy2

set_option maxRecDepth 8000 in
/-- C8, counterexample to the claim as stated: the declared VARCHAR length
is capped (at 500 in the SQLite-to-MySQL loader, at 65535 in the CSV
loader), so for a column observing a 600-character string the migration
loader declares `VARCHAR(500)`, smaller than the longest observed string
value. -/
theorem C8_counterexample :
    colDefForMigrate colC8cex = some (SqlType.varchar 500) ∧
      500 < cellStrLen (Cell.str longStrC8) := by decide

/-- C8 (amended): the loader's column typing maps int64 to BIGINT, float64
to DOUBLE, bool to BOOLEAN, any other non-object dtype to TEXT, and an
object column with at least one row to
`VARCHAR(min(max(L + 100, 255), 65535))` where `L` is the longest
stringified value; that length bounds every observed string value of
length at most 65535 (longer strings exceed the declared cap). -/
theorem C8_sink_column_types (c : Column) :
    (c.dtype = Dtype.int64 → colDefFor c = some SqlType.bigint) ∧
    (c.dtype = Dtype.float64 → colDefFor c = some SqlType.double) ∧
    (c.dtype = Dtype.boolDt → colDefFor c = some SqlType.boolean) ∧
    (c.dtype = Dtype.otherDt → colDefFor c = some SqlType.text) ∧
    (c.dtype = Dtype.object → c.cells ≠ [] →
      ∃ L, maxLenOf c.cells = some L ∧
        colDefFor c = some (SqlType.varchar (min (max (L + 100) 255) 65535)) ∧
        ∀ s, Cell.str s ∈ c.cells → s.length ≤ 65535 →
          s.length ≤ min (max (L + 100) 255) 65535) := by
  refine ⟨fun h => by simp [colDefFor, h], fun h => by simp [colDefFor, h],
    fun h => by simp [colDefFor, h], fun h => by simp [colDefFor, h], ?_⟩
  intro hdt hne
  rcases hc : c.cells with _ | ⟨x, xs⟩
  · exact absurd hc hne
  · refine ⟨((x :: xs).map cellStrLen).foldl Nat.max 0, ?_, ?_, ?_⟩
    · simp [maxLenOf, hc]
    · simp [colDefFor, hdt, maxLenOf, hc]
    · intro s hs hcap
      have hmem : s.length ∈ (x :: xs).map cellStrLen :=
        List.mem_map.mpr ⟨Cell.str s, hs, rfl⟩
      have hle := mem_le_foldl_max _ 0 _ hmem
      refine Nat.le_min.mpr ⟨?_, hcap⟩
      exact Nat.le_trans hle (Nat.le_trans (Nat.le_add_right _ 100) (Nat.le_max_left _ _))

/-- C8 witness: the amended theorem applied to a concrete two-cell object
column. -/
theorem C8_witness :
    ∃ L, maxLenOf colC8w.cells = some L ∧
      colDefFor colC8w = some (SqlType.varchar (min (max (L + 100) 255) 65535)) ∧
      ∀ s, Cell.str s ∈ colC8w.cells → s.length ≤ 65535 →
        s.length ≤ min (max (L + 100) 255) 65535 :=
  (C8_sink_column_types colC8w).2.2.2.2 rfl (by decide)

/-!
### C9: the CSV read inside the SQLite reader is value-dead but not
effect-dead
-/

/-- C9, counterexample to the claim as stated: when the same-named CSV file
is absent (`pd.read_csv` raises, modelled by `none`), `read_sqlite` raises
even though the direct SQLite read would succeed, so the CSV read does
affect whether the function raises. -/
theorem C9_counterexample :
    read_sqlite none (some dfC9) ≠ some dfC9 := by decide

/-- C9 (amended): the CSV read's value is dead — whenever the CSV read
succeeds, `read_sqlite` returns exactly the result of the SQLite read,
whatever table the CSV produced. -/
theorem C9_value_dead (csvRead sqliteRead : Option DataFrame) (t : DataFrame)
    (h : csvRead = some t) :
    read_sqlite csvRead sqliteRead = sqliteRead := by
  rw [h]
  rfl

/-- C9 witness: the amended theorem at a concrete pair of reads. -/
theorem C9_witness :
    read_sqlite (some dfC9) (some dfC9) = some dfC9 :=
  C9_value_dead (some dfC9) (some dfC9) dfC9 rfl

/-!
### C2: uniqueness of the identifier after deduplication
-/

theorem maskFilter_cons_true {α : Type} (bs : List Bool) (x : α) (xs : List α) :
    maskFilter (true :: bs) (x :: xs) = x :: maskFilter bs xs := rfl

theorem maskFilter_cons_false {α : Type} (bs : List Bool) (x : α) (xs : List α) :
    maskFilter (false :: bs) (x :: xs) = maskFilter bs xs := rfl

theorem keepFirst_spec {α : Type} [DecidableEq α] :
    ∀ (l seen : List α),
      (maskFilter (keepFirstGo seen l) l).Nodup ∧
        ∀ x ∈ maskFilter (keepFirstGo seen l) l, x ∉ seen
  | [], _ => by
    constructor
    · exact List.nodup_nil
    · intro x hx
      exact absurd hx (List.not_mem_nil x)
  | x :: xs, seen => by
    show (maskFilter (decide (x ∉ seen) ::
        keepFirstGo (if x ∈ seen then seen else x :: seen) xs) (x :: xs)).Nodup ∧
      ∀ y ∈ maskFilter (decide (x ∉ seen) ::
        keepFirstGo (if x ∈ seen then seen else x :: seen) xs) (x :: xs), y ∉ seen
    by_cases hx : x ∈ seen
    · rw [if_pos hx, show decide (x ∉ seen) = false by simp [hx], maskFilter_cons_false]
      exact keepFirst_spec xs seen
    · rw [if_neg hx, show decide (x ∉ seen) = true by simp [hx], maskFilter_cons_true]
      obtain ⟨ih1, ih2⟩ := keepFirst_spec xs (x :: seen)
      constructor
      · exact List.nodup_cons.mpr
          ⟨fun hmem => (ih2 x hmem) (List.mem_cons_self x seen), ih1⟩
      · intro y hy
        rcases List.mem_cons.mp hy with rfl | hy2
        · exact hx
        · exact fun hys => (ih2 y hy2) (List.mem_cons_of_mem x hys)

theorem nodup_maskFilter_keepFirstMask {α : Type} [DecidableEq α] (l : List α) :
    (maskFilter (keepFirstMask l) l).Nodup :=
  (keepFirst_spec l []).1

/-- C2 (confirmed): for every table with a `track_id` column, after
`clean_data` no two rows share the same `track_id` value — the
deduplication step keeps the first row of each identifier group, and the
later audio-feature pass does not touch the identifier column. -/
theorem C2_track_id_unique (df : DataFrame) (h : hasCol df "track_id" = true) :
    ∃ c, getCol (clean_data df) "track_id" = some c ∧ c.cells.Nodup := by
  have h0 : (getCol df "track_id").isSome = true := by
    rw [getCol_isSome]
    exact h
  obtain ⟨c0, hc0⟩ := Option.isSome_iff_exists.mp h0
  have h3 : ∃ c3, getCol (step3 (step2 (step1 df))) "track_id" = some c3 := by
    unfold step3 step2
    rw [getCol_mapCols, getCol_mapCols, getCol_step1 df _ (by decide), hc0]
    exact ⟨_, rfl⟩
  obtain ⟨c3, hc3⟩ := h3
  have h4 : step4 (step3 (step2 (step1 df))) =
      filterRowsBy (step3 (step2 (step1 df))) (keepFirstMask c3.cells) := by
    unfold step4
    rw [hc3]
  have h5 : getCol (step4 (step3 (step2 (step1 df)))) "track_id" =
      some ⟨c3.dtype, maskFilter (keepFirstMask c3.cells) c3.cells⟩ := by
    rw [h4]
    unfold filterRowsBy
    rw [getCol_mapCols, hc3]
    rfl
  refine ⟨⟨c3.dtype, maskFilter (keepFirstMask c3.cells) c3.cells⟩, ?_, ?_⟩
  · unfold clean_data step5
    rw [getCol_mapCols, h5]
    rfl
  · exact nodup_maskFilter_keepFirstMask c3.cells

/-- C2 witness: the theorem applied to a table with duplicate and missing
identifiers. -/
theorem C2_witness :
    ∃ c, getCol (clean_data dfC2w) "track_id" = some c ∧ c.cells.Nodup :=
  C2_track_id_unique dfC2w (by decide)

/-!
### C4: the quality report on an engineered table
-/

theorem filterMap_via_filter {α β : Type} (f : α → Option β) (p : α → Bool) (g : α → β)
    (hf : ∀ a, f a = if p a then some (g a) else none) :
    ∀ l : List α, l.filterMap f = (l.filter p).map g
  | [] => rfl
  | a :: l => by
    by_cases hp : p a = true
    · rw [List.filterMap_cons_some (by rw [hf a, if_pos hp]),
        List.filter_cons_of_pos hp, List.map_cons,
        filterMap_via_filter f p g hf l]
    · rw [List.filterMap_cons_none (by rw [hf a, if_neg hp]),
        List.filter_cons_of_neg hp,
        filterMap_via_filter f p g hf l]

/-- C4, counterexample to the claim as stated: a table can contain exactly
one duplicated identifier value and exactly one missing critical-column
value and still produce further issues — here a non-numeric
`danceability` column adds a third warning, so the issue list is not
exactly the two corresponding warnings. -/
theorem C4_counterexample :
    (validate_cleaned_data dfC4cex).duplicate_tracks = 1 ∧
      criticalCols.filter (fun n => missingOf dfC4cex n != 0) = ["artists"] ∧
      missingOf dfC4cex "artists" = 1 ∧
      (validate_cleaned_data dfC4cex).issues ≠
        [Issue.dupTracks 1, Issue.missingCol "artists" 1] := by decide

/-- C4 (amended): for every table with exactly one duplicated identifier
value, exactly one missing value concentrated in one critical column, and
no other quality defect (all present audio-feature columns numeric, no
leftover index column), the report's duplicate-identifier count is 1 and
its issue list is exactly the two corresponding warnings. -/
theorem C4_quality_report (df : DataFrame) (ctid : Column) (c : String)
    (htid : getCol df "track_id" = some ctid)
    (hdup : dupCount ctid.cells = 1)
    (hcrit : criticalCols.filter (fun n => missingOf df n != 0) = [c])
    (hmiss : missingOf df c = 1)
    (haudio : audioFeaturesValidate.all (fun n =>
      match getCol df n with
      | some cc => isNumericDtype cc.dtype
      | none => true) = true)
    (hunnamed : hasCol df "Unnamed: 0" = false) :
    (validate_cleaned_data df).duplicate_tracks = 1 ∧
      (validate_cleaned_data df).issues = [Issue.dupTracks 1, Issue.missingCol c 1] := by
  have hi2 : criticalCols.filterMap (fun n =>
      match getCol df n with
      | some cc => if countNA cc > 0 then some (Issue.missingCol n (countNA cc)) else none
      | none => none) =
      (criticalCols.filter (fun n => missingOf df n != 0)).map
        (fun n => Issue.missingCol n (missingOf df n)) := by
    refine filterMap_via_filter _ _ _ (fun n => ?_) criticalCols
    cases hg : getCol df n with
    | none =>
      have hz : missingOf df n = 0 := by
        unfold missingOf
        rw [hg]
      simp [hz]
    | some cc =>
      have hm : missingOf df n = countNA cc := by
        unfold missingOf
        rw [hg]
      rw [hm]
      show (if countNA cc > 0 then some (Issue.missingCol n (countNA cc)) else none) =
        if (countNA cc != 0) = true then some (Issue.missingCol n (countNA cc)) else none
      rcases Nat.eq_zero_or_pos (countNA cc) with hz | hz
      · simp [hz]
      · rw [if_pos hz, if_pos (by simpa using Nat.pos_iff_ne_zero.mp hz)]
  have hnn : audioFeaturesValidate.filter (fun n =>
      match getCol df n with
      | some cc => !(isNumericDtype cc.dtype)
      | none => false) = [] := by
    rw [List.filter_eq_nil_iff]
    intro n hn
    have := List.all_eq_true.mp haudio n hn
    cases hg : getCol df n with
    | none => simp
    | some cc =>
      rw [hg] at this
      have h2 : isNumericDtype cc.dtype = true := by simpa using this
      simp [hg, h2]
  unfold validate_cleaned_data
  simp only [htid, hdup, hi2, hcrit, hmiss, hnn, hunnamed, List.map_cons, List.map_nil]
  constructor
  · trivial
  · rfl

/-- C4 witness: the amended theorem applied to the engineered table. -/
theorem C4_witness :
    (validate_cleaned_data dfC4w).duplicate_tracks = 1 ∧
      (validate_cleaned_data dfC4w).issues =
        [Issue.dupTracks 1, Issue.missingCol "artists" 1] :=
  C4_quality_report dfC4w ⟨Dtype.object, [Cell.str "a", Cell.str "a", Cell.str "b"]⟩
    "artists" (by decide) (by decide) (by decide) (by decide) (by decide) (by decide)

/-!
### C5: the dashboard filter
-/

theorem maskFilter_nil_mask {α : Type} (l : List α) : maskFilter [] l = [] := by
  cases l <;> rfl

theorem maskFilter_nil_list {α : Type} (m : List Bool) :
    maskFilter m ([] : List α) = [] := by
  cases m <;> rfl

theorem maskSeq_cons_false (m1 m2 : List Bool) :
    maskSeq (false :: m1) m2 = false :: maskSeq m1 m2 := by
  cases m2 <;> rfl

theorem maskFilter_maskSeq_nil {α : Type} :
    ∀ (m : List Bool) (l : List α), maskFilter (maskSeq m []) l = []
  | [], l => maskFilter_nil_mask l
  | false :: m, [] => rfl
  | false :: m, x :: xs => maskFilter_maskSeq_nil m xs
  | true :: m, [] => rfl
  | true :: m, x :: xs => maskFilter_maskSeq_nil m xs

theorem maskFilter_maskSeq {α : Type} :
    ∀ (m1 : List Bool) (l : List α) (m2 : List Bool),
      maskFilter m2 (maskFilter m1 l) = maskFilter (maskSeq m1 m2) l
  | [], l, m2 => by
    rw [maskFilter_nil_mask, maskFilter_nil_list]
    exact (maskFilter_nil_mask l).symm
  | b :: m1, [], m2 => by
    rw [maskFilter_nil_list, maskFilter_nil_list, maskFilter_nil_list]
  | false :: m1, x :: xs, m2 => by
    rw [maskFilter_cons_false, maskSeq_cons_false, maskFilter_cons_false]
    exact maskFilter_maskSeq m1 xs m2
  | true :: m1, x :: xs, [] => by
    rw [maskFilter_cons_true, maskFilter_nil_mask]
    show ([] : List α) = maskFilter (false :: maskSeq m1 []) (x :: xs)
    rw [maskFilter_cons_false, maskFilter_maskSeq_nil]
  | true :: m1, x :: xs, b :: m2 => by
    rw [maskFilter_cons_true]
    show maskFilter (b :: m2) (x :: maskFilter m1 xs) =
      maskFilter (b :: maskSeq m1 m2) (x :: xs)
    cases b with
    | true =>
      rw [maskFilter_cons_true, maskFilter_cons_true, maskFilter_maskSeq m1 xs m2]
    | false =>
      rw [maskFilter_cons_false, maskFilter_cons_false, maskFilter_maskSeq m1 xs m2]

theorem maskSeq_zipWith {α β : Type} (q : α → Bool) (p : β → Bool) :
    ∀ (l1 : List α) (l2 : List β), l1.length = l2.length →
      maskSeq (l1.map q) ((maskFilter (l1.map q) l2).map p) =
        List.zipWith (fun x y => q x && p y) l1 l2
  | [], [], _ => rfl
  | [], y :: l2, h => by simp at h
  | x :: l1, [], h => by simp at h
  | x :: l1, y :: l2, h => by
    have h2 : l1.length = l2.length := by simpa using h
    simp only [List.map_cons, List.zipWith_cons_cons]
    cases hq : q x with
    | false =>
      rw [maskFilter_cons_false, maskSeq_cons_false,
        maskSeq_zipWith q p l1 l2 h2, Bool.false_and]
    | true =>
      rw [maskFilter_cons_true, List.map_cons]
      show maskSeq (true :: l1.map q) (p y :: (maskFilter (l1.map q) l2).map p) = _
      show p y :: maskSeq (l1.map q) ((maskFilter (l1.map q) l2).map p) = _
      rw [maskSeq_zipWith q p l1 l2 h2, Bool.true_and]

theorem getCol_filterRowsBy (df : DataFrame) (mask : List Bool) (n : String) :
    getCol (filterRowsBy df mask) n =
      (getCol df n).map (fun c => ⟨c.dtype, maskFilter mask c.cells⟩) :=
  getCol_mapCols _ df n

theorem filterRowsBy_filterRowsBy (df : DataFrame) (m1 m2 : List Bool) :
    filterRowsBy (filterRowsBy df m1) m2 = filterRowsBy df (maskSeq m1 m2) := by
  unfold filterRowsBy mapCols
  congr 1
  rw [List.map_map]
  refine List.map_congr_left (fun p _ => ?_)
  show (p.1, Column.mk p.2.dtype (maskFilter m2 (maskFilter m1 p.2.cells))) =
    (p.1, Column.mk p.2.dtype (maskFilter (maskSeq m1 m2) p.2.cells))
  rw [maskFilter_maskSeq]

theorem getCol_mem (df : DataFrame) (n : String) (c : Column)
    (h : getCol df n = some c) : (n, c) ∈ df.cols := by
  unfold getCol at h
  cases hf : df.cols.find? (fun p => p.1 == n) with
  | none =>
    rw [hf] at h
    exact Option.noConfusion h
  | some p =>
    rw [hf] at h
    have hm := List.mem_of_find?_eq_some hf
    have hp := List.find?_some hf
    have h1 : p.1 = n := by simpa using hp
    have h2 : p.2 = c := by simpa using h
    rw [← h1, ← h2]
    exact hm

/-- C5, counterexample to the claim as stated: for the genre literally
named `"All"` the sidebar sentinel disables genre filtering, so the
returned rows are not exactly those whose `track_genre` equals the
selected genre. -/
theorem C5_counterexample :
    dashboardFilter dfC5cex "All" "" (Frac.ofInt 0) (Frac.ofInt 100) ≠
      some (filterRowsBy dfC5cex
        (List.zipWith
          (fun tg pp => cellEqStr "All" tg &&
            (cellGeQ pp (Frac.ofInt 0) && cellLeQ pp (Frac.ofInt 100)))
          [Cell.str "All", Cell.str "rock"] [Cell.int 50, Cell.int 50])) := by decide

/-- C5 (amended): for every rectangular table with `track_genre` and
`popularity` columns, every genre other than the sentinel `"All"`, and
every popularity range, the dashboard filter (with an empty artist
search) returns exactly the rows whose genre equals the selected genre
and whose popularity lies in the inclusive range. -/
theorem C5_filter_exact (df : DataFrame) (g : String) (a b : Frac) (cg cp : Column)
    (hg : ¬(g = "All")) (hab : a.le b = true) (hrect : Rect df)
    (hcg : getCol df "track_genre" = some cg)
    (hcp : getCol df "popularity" = some cp) :
    dashboardFilter df g "" a b =
      some (filterRowsBy df (List.zipWith
        (fun tg pp => cellEqStr g tg && (cellGeQ pp a && cellLeQ pp b))
        cg.cells cp.cells)) := by
  have hne : (g != "All") = true := by simpa using hg
  have hlg : cg.cells.length = nRows df := hrect _ (getCol_mem df _ cg hcg)
  have hlp : cp.cells.length = nRows df := hrect _ (getCol_mem df _ cp hcp)
  unfold dashboardFilter
  simp only [hne, if_true, bne_self_eq_false, Bool.false_eq_true, if_false,
    filterOnCol, hcg, Option.map_some', getCol_filterRowsBy, hcp]
  rw [filterRowsBy_filterRowsBy,
    maskSeq_zipWith (cellEqStr g) (fun x => cellGeQ x a && cellLeQ x b) cg.cells cp.cells
      (by rw [hlg, hlp])]

/-- C5 witness: the 100-row example of the spec — filtering genre `"pop"`
with the inclusive range 20 to 100 returns exactly the rows satisfying
both predicates, and there are exactly 30 of them. -/
theorem C5_witness :
    dashboardFilter df100 "pop" "" (Frac.ofInt 20) (Frac.ofInt 100) =
      some (filterRowsBy df100 (List.zipWith
        (fun tg pp => cellEqStr "pop" tg &&
          (cellGeQ pp (Frac.ofInt 20) && cellLeQ pp (Frac.ofInt 100)))
        genreCells100 popCells100)) ∧
      (dashboardFilter df100 "pop" "" (Frac.ofInt 20) (Frac.ofInt 100)).map nRows =
        some 30 :=
  ⟨C5_filter_exact df100 "pop" (Frac.ofInt 20) (Frac.ofInt 100)
      ⟨Dtype.object, genreCells100⟩ ⟨Dtype.int64, popCells100⟩
      (by decide) (by decide) (by decide) (by decide) (by decide),
    by decide⟩

/-!
### C6: batched inserts, per-batch commit, rollback on error
-/

theorem runBatch_ok (fails : List (Option Cell) → Bool) :
    ∀ (b : List (List (Option Cell))) (st : MySQLState),
      (∀ r ∈ b, fails r = false) →
      runBatch fails st b = Except.ok ⟨st.committed, st.pending ++ b⟩
  | [], st, _ => by
    show Except.ok st = Except.ok (⟨st.committed, st.pending ++ []⟩ : MySQLState)
    rw [List.append_nil]
  | r :: rs, st, h => by
    have hr : fails r = false := h r (List.mem_cons_self r rs)
    show (if fails r = true then Except.error st
      else runBatch fails (execInsert st r) rs) = _
    rw [hr]
    simp only [Bool.false_eq_true, if_false]
    rw [runBatch_ok fails rs (execInsert st r)
      (fun x hx => h x (List.mem_cons_of_mem r hx))]
    show Except.ok (⟨st.committed, st.pending ++ [r] ++ rs⟩ : MySQLState) = _
    rw [List.append_assoc]
    rfl

theorem runBatch_err (fails : List (Option Cell) → Bool) :
    ∀ (b : List (List (Option Cell))) (st : MySQLState), (∃ r ∈ b, fails r = true) →
      ∃ st2, runBatch fails st b = Except.error st2 ∧ st2.committed = st.committed
  | [], _, h => absurd h (by simp)
  | r :: rs, st, h => by
    cases hr : fails r with
    | true =>
      refine ⟨st, ?_, rfl⟩
      show (if fails r = true then Except.error st
        else runBatch fails (execInsert st r) rs) = _
      rw [hr]
      simp
    | false =>
      have h2 : ∃ x ∈ rs, fails x = true := by
        rcases h with ⟨x, hx, hfx⟩
        rcases List.mem_cons.mp hx with rfl | hx2
        · rw [hr] at hfx
          exact Bool.noConfusion hfx
        · exact ⟨x, hx2, hfx⟩
      obtain ⟨st2, hrun, hcom⟩ := runBatch_err fails rs (execInsert st r) h2
      refine ⟨st2, ?_, hcom⟩
      show (if fails r = true then Except.error st
        else runBatch fails (execInsert st r) rs) = _
      rw [hr]
      simpa using hrun

theorem runLoad_ok (fails : List (Option Cell) → Bool) :
    ∀ (bs : List (List (List (Option Cell)))) (C : List (List (Option Cell))),
      (∀ r ∈ bs.flatten, fails r = false) →
      runLoad fails ⟨C, []⟩ bs = Except.ok ⟨C ++ bs.flatten, []⟩
  | [], C, _ => by
    show Except.ok (⟨C, []⟩ : MySQLState) = _
    rw [List.flatten_nil, List.append_nil]
  | b :: bs, C, h => by
    have hb : ∀ r ∈ b, fails r = false := fun r hr =>
      h r (by rw [List.flatten_cons]; exact List.mem_append_left _ hr)
    have hbs : ∀ r ∈ bs.flatten, fails r = false := fun r hr =>
      h r (by rw [List.flatten_cons]; exact List.mem_append_right _ hr)
    show (match runBatch fails ⟨C, []⟩ b with
      | Except.ok st2 => runLoad fails (commitConn st2) bs
      | Except.error st2 => Except.error (rollbackConn st2)) = _
    rw [runBatch_ok fails b ⟨C, []⟩ hb]
    show runLoad fails (commitConn ⟨C, [] ++ b⟩) bs = _
    rw [show commitConn ⟨C, [] ++ b⟩ = (⟨C ++ b, []⟩ : MySQLState) by
      show (⟨C ++ ([] ++ b), []⟩ : MySQLState) = _
      rw [List.nil_append]]
    rw [runLoad_ok fails bs (C ++ b) hbs]
    rw [List.flatten_cons, List.append_assoc]

theorem runLoad_err (fails : List (Option Cell) → Bool) :
    ∀ (k : Nat) (bs : List (List (List (Option Cell)))) (C : List (List (Option Cell))),
      (∀ r ∈ (bs.take k).flatten, fails r = false) →
      (∃ r ∈ bs.getD k [], fails r = true) →
      runLoad fails ⟨C, []⟩ bs = Except.error ⟨C ++ (bs.take k).flatten, []⟩
  | 0, [], _, _, hex => absurd hex (by simp)
  | 0, b :: bs, C, _, hex => by
    have hex2 : ∃ r ∈ b, fails r = true := by simpa using hex
    obtain ⟨st2, hrun, hcom⟩ := runBatch_err fails b ⟨C, []⟩ hex2
    show (match runBatch fails ⟨C, []⟩ b with
      | Except.ok st2 => runLoad fails (commitConn st2) bs
      | Except.error st2 => Except.error (rollbackConn st2)) = _
    rw [hrun]
    show Except.error (⟨st2.committed, []⟩ : MySQLState) = _
    rw [hcom]
    show Except.error (⟨C, []⟩ : MySQLState) =
      Except.error ⟨C ++ (((b :: bs).take 0).flatten : List (List (Option Cell))), []⟩
    rw [List.take_zero, List.flatten_nil, List.append_nil]
  | k + 1, [], _, _, hex => absurd hex (by simp)
  | k + 1, b :: bs, C, hok, hex => by
    have hb : ∀ r ∈ b, fails r = false := fun r hr => hok r (by
      rw [List.take_succ_cons, List.flatten_cons]
      exact List.mem_append_left _ hr)
    have hrest : ∀ r ∈ (bs.take k).flatten, fails r = false := fun r hr => hok r (by
      rw [List.take_succ_cons, List.flatten_cons]
      exact List.mem_append_right _ hr)
    have hex2 : ∃ r ∈ bs.getD k [], fails r = true := by simpa using hex
    show (match runBatch fails ⟨C, []⟩ b with
      | Except.ok st2 => runLoad fails (commitConn st2) bs
      | Except.error st2 => Except.error (rollbackConn st2)) = _
    rw [runBatch_ok fails b ⟨C, []⟩ hb]
    show runLoad fails (commitConn ⟨C, [] ++ b⟩) bs = _
    rw [show commitConn ⟨C, [] ++ b⟩ = (⟨C ++ b, []⟩ : MySQLState) by
      show (⟨C ++ ([] ++ b), []⟩ : MySQLState) = _
      rw [List.nil_append]]
    rw [runLoad_err fails k bs (C ++ b) hrest hex2]
    rw [List.take_succ_cons, List.flatten_cons, List.append_assoc]

theorem chunksGo_flatten {α : Type} (n : Nat) :
    ∀ (fuel : Nat) (l : List α), l.length ≤ fuel → (chunksGo n fuel l).flatten = l
  | fuel, [], _ => by
    rw [show chunksGo n fuel ([] : List α) = [] from (by cases fuel <;> rfl),
      List.flatten_nil]
  | 0, x :: xs, h => by simp at h
  | fuel + 1, x :: xs, h => by
    show ((x :: xs.take n) :: chunksGo n fuel (xs.drop n)).flatten = x :: xs
    rw [List.flatten_cons, chunksGo_flatten n fuel (xs.drop n) (by
      rw [List.length_drop]
      simp only [List.length_cons] at h
      omega)]
    show x :: (xs.take n ++ xs.drop n) = x :: xs
    rw [List.take_append_drop]

theorem chunksGo_take_flatten {α : Type} (n : Nat) :
    ∀ (k fuel : Nat) (l : List α), l.length ≤ fuel →
      ((chunksGo n fuel l).take k).flatten = l.take ((n + 1) * k)
  | 0, _, l, _ => by
    rw [List.take_zero, List.flatten_nil, Nat.mul_zero, List.take_zero]
  | k + 1, fuel, [], _ => by
    rw [show chunksGo n fuel ([] : List α) = [] from (by cases fuel <;> rfl)]
    simp
  | k + 1, 0, x :: xs, h => by simp at h
  | k + 1, fuel + 1, x :: xs, h => by
    show (((x :: xs.take n) :: chunksGo n fuel (xs.drop n)).take (k + 1)).flatten = _
    rw [List.take_succ_cons, List.flatten_cons]
    rw [chunksGo_take_flatten n k fuel (xs.drop n) (by
      rw [List.length_drop]
      simp only [List.length_cons] at h
      omega)]
    rw [show (n + 1) * (k + 1) = (n + (n + 1) * k) + 1 by ring]
    rw [List.take_succ_cons, List.take_add]
    rfl

theorem chunksGo_getD {α : Type} (n : Nat) :
    ∀ (k fuel : Nat) (l : List α), l.length ≤ fuel →
      (chunksGo n fuel l).getD k [] = (l.drop ((n + 1) * k)).take (n + 1)
  | k, fuel, [], _ => by
    rw [show chunksGo n fuel ([] : List α) = [] from (by cases fuel <;> rfl)]
    simp
  | 0, 0, x :: xs, h => by simp at h
  | 0, fuel + 1, x :: xs, _ => by
    show ((x :: xs.take n) :: chunksGo n fuel (xs.drop n)).getD 0 [] = _
    rw [List.getD_cons_zero, Nat.mul_zero, List.drop_zero]
    rfl
  | k + 1, 0, x :: xs, h => by simp at h
  | k + 1, fuel + 1, x :: xs, h => by
    show ((x :: xs.take n) :: chunksGo n fuel (xs.drop n)).getD (k + 1) [] = _
    rw [List.getD_cons_succ]
    rw [chunksGo_getD n k fuel (xs.drop n) (by
      rw [List.length_drop]
      simp only [List.length_cons] at h
      omega)]
    rw [List.drop_drop]
    rw [show (n + 1) * (k + 1) = (n + (n + 1) * k) + 1 by ring]
    rw [List.drop_succ_cons]

/-- C6 (confirmed): the insert phase commits after each 1000-row batch;
if every insert succeeds all rows end up committed, and if some insert of
batch `k` raises (after all earlier batches were clean), the open batch
is rolled back, the error is re-raised, and exactly the first `1000 * k`
rows — the batches that already committed — remain applied.  There is no
all-or-nothing atomicity across the whole load. -/
theorem C6_batched_insert (df : DataFrame) (fails : List (Option Cell) → Bool) :
    ((∀ r ∈ loadRows df, fails r = false) →
      load_csv_to_mysql fails df = Except.ok ⟨loadRows df, []⟩) ∧
    (∀ k, (∀ r ∈ ((loadBatches df).take k).flatten, fails r = false) →
      (∃ r ∈ (loadBatches df).getD k [], fails r = true) →
      load_csv_to_mysql fails df =
        Except.error ⟨(loadRows df).take (1000 * k), []⟩) := by
  have hflat : (loadBatches df).flatten = loadRows df :=
    chunksGo_flatten 999 (loadRows df).length (loadRows df) (Nat.le_refl _)
  constructor
  · intro hall
    unfold load_csv_to_mysql
    rw [runLoad_ok fails (loadBatches df) [] (by rw [hflat]; exact hall)]
    rw [hflat, List.nil_append]
  · intro k hpre hex
    unfold load_csv_to_mysql
    rw [runLoad_err fails k (loadBatches df) [] hpre hex]
    have ht : ((loadBatches df).take k).flatten = (loadRows df).take ((999 + 1) * k) :=
      chunksGo_take_flatten 999 k (loadRows df).length (loadRows df) (Nat.le_refl _)
    rw [ht, List.nil_append]

set_option maxRecDepth 20000 in
theorem loadRows_dfC6w :
    loadRows dfC6w = (List.range 1100).map (fun i : Nat => [some (Cell.int i)]) := by
  show ((List.range (nRows dfC6w)).map (rowAt dfC6w)).map (fun r => r.map pyCell) = _
  have hn : nRows dfC6w = 1100 := by
    show ((List.range 1100).map (fun i : Nat => Cell.int i)).length = 1100
    rw [List.length_map, List.length_range]
  rw [hn, List.map_map]
  refine List.map_congr_left (fun i hi => ?_)
  have hlt : i < 1100 := List.mem_range.mp hi
  show ([((List.range 1100).map (fun j : Nat => Cell.int j)).getD i Cell.na]).map pyCell = _
  rw [List.getD_eq_getElem?_getD, List.getElem?_map, List.getElem?_range hlt]
  rfl

theorem C6w_first_batch_clean :
    ∀ r ∈ ((loadBatches dfC6w).take 1).flatten, failsC6 r = false := by
  have h1 : ((loadBatches dfC6w).take 1).flatten = (loadRows dfC6w).take ((999 + 1) * 1) :=
    chunksGo_take_flatten 999 1 (loadRows dfC6w).length (loadRows dfC6w) (Nat.le_refl _)
  intro r hr
  rw [h1, loadRows_dfC6w, ← List.map_take, List.take_range] at hr
  rcases List.mem_map.mp hr with ⟨i, hi, rfl⟩
  have hlt : i < min ((999 + 1) * 1) 1100 := List.mem_range.mp hi
  have hlt2 : i < 1000 := by
    rw [show min ((999 + 1) * 1) 1100 = 1000 from rfl] at hlt
    exact hlt
  refine beq_eq_false_iff_ne.mpr (fun hcontra => ?_)
  simp only [List.cons.injEq, Option.some.injEq, Cell.int.injEq, and_true] at hcontra
  omega

theorem C6w_second_batch_fails :
    ∃ r ∈ (loadBatches dfC6w).getD 1 [], failsC6 r = true := by
  refine ⟨[some (Cell.int 1050)], ?_, by decide⟩
  have hb : (loadBatches dfC6w).getD 1 [] =
      ((loadRows dfC6w).drop ((999 + 1) * 1)).take (999 + 1) :=
    chunksGo_getD 999 1 (loadRows dfC6w).length (loadRows dfC6w) (Nat.le_refl _)
  rw [hb, loadRows_dfC6w]
  have hidx : ((((List.range 1100).map
        (fun i : Nat => [some (Cell.int i)])).drop ((999 + 1) * 1)).take (999 + 1))[50]? =
      some [some (Cell.int 1050)] := by
    rw [List.getElem?_take_of_lt (by norm_num), List.getElem?_drop, List.getElem?_map,
      List.getElem?_range (by norm_num)]
    norm_num
  rcases List.getElem?_eq_some_iff.mp hidx with ⟨hlen, hget⟩
  rw [← hget]
  exact List.getElem_mem hlen

/-- C6 witness: on a 1100-row table whose row holding 1050 fails to
insert, the loader raises and exactly the first batch of 1000 rows stays
committed. -/
theorem C6_witness :
    load_csv_to_mysql failsC6 dfC6w =
      Except.error ⟨(loadRows dfC6w).take (1000 * 1), []⟩ :=
  (C6_batched_insert dfC6w failsC6).2 1 C6w_first_batch_clean C6w_second_batch_fails

theorem contains_true_iff_mem {α : Type} [BEq α] [LawfulBEq α] (a : α) (l : List α) :
    l.contains a = true ↔ a ∈ l := by
  rw [List.contains_iff_exists_mem_beq]
  constructor
  · rintro ⟨b, hb, he⟩
    rw [eq_of_beq he]
    exact hb
  · intro h
    exact ⟨a, h, by simp⟩

/-- C7 counterexample: the column `"c"` holding `["1", "a", "b"]` has a
sample of which only a minority (1 of 3) parses as a number, yet step 3 of
`clean_data` promotes it: the column is coerced to numeric and
median-imputed, so promotion is not governed by a majority of the
sample. -/
theorem C7_counterexample :
    getCol dfC7cex "c" =
        some ⟨Dtype.object, [Cell.str "1", Cell.str "a", Cell.str "b"]⟩ ∧
      numericCandidatesBase.contains "c" = false ∧
      ¬ specMajority ⟨Dtype.object, [Cell.str "1", Cell.str "a", Cell.str "b"]⟩ ∧
      getCol (step3 dfC7cex) "c" =
        some (coerceFill ⟨Dtype.object, [Cell.str "1", Cell.str "a", Cell.str "b"]⟩) ∧
      coerceFill ⟨Dtype.object, [Cell.str "1", Cell.str "a", Cell.str "b"]⟩ ≠
        ⟨Dtype.object, [Cell.str "1", Cell.str "a", Cell.str "b"]⟩ := by
  decide

/-- C7 (corrected): in step 3 of `clean_data`, an object column outside the
declared candidate list is promoted — coerced to numeric and
median-imputed — exactly when its sample (the first 20 non-null values) is
non-empty and at least `max 1 (len(sample) // 2)` of the sampled values
parse as numbers.  The code's threshold is not a strict majority: exactly
half the sample, and even a single parsed value out of up to three,
suffices.  A column whose sample is empty is indeed never promoted. -/
theorem C7_promotion_threshold (df : DataFrame) (x : String) (col : Column)
    (hnd : (colNames df).Nodup)
    (hget : getCol df x = some col)
    (hobj : col.dtype = Dtype.object)
    (hnb : numericCandidatesBase.contains x = false) :
    getCol (step3 df) x = some (if promotes col then coerceFill col else col) ∧
      (promotes col = true ↔
        sampleCells col ≠ [] ∧
          max 1 ((sampleCells col).length / 2) ≤ parseCount col) := by
  have hnd' : (df.cols.map (fun p => p.1)).Nodup := hnd
  have hmem : (x, col) ∈ df.cols := getCol_mem df x col hget
  have hcand : (candidatesOf df).contains x = promotes col := by
    cases hp : promotes col with
    | true =>
      refine (contains_true_iff_mem x (candidatesOf df)).mpr ?_
      refine List.mem_append.mpr (Or.inr ?_)
      refine List.mem_map.mpr ⟨(x, col), ?_, rfl⟩
      refine List.mem_filter.mpr ⟨hmem, ?_⟩
      show (!(numericCandidatesBase.contains x) && promotes col) = true
      rw [hnb, hp]
      rfl
    | false =>
      cases hcc : (candidatesOf df).contains x with
      | false => rfl
      | true =>
        exfalso
        rcases List.mem_append.mp ((contains_true_iff_mem x (candidatesOf df)).mp hcc)
          with hx | hx
        · rw [(contains_true_iff_mem x numericCandidatesBase).mpr hx] at hnb
          exact Bool.noConfusion hnb
        · rcases List.mem_map.mp hx with ⟨p, hpf, hp1⟩
          have hpcols := (List.mem_filter.mp hpf).1
          have hpred := (List.mem_filter.mp hpf).2
          have hpe : p = (x, col) :=
            List.inj_on_of_nodup_map hnd' hpcols hmem (by exact hp1)
          rw [hpe] at hpred
          have : promotes col = true := by
            have h2 := (Bool.and_eq_true _ _).mp hpred
            exact h2.2
          rw [hp] at this
          exact Bool.noConfusion this
  constructor
  · rw [show step3 df = mapCols
        (fun n c => if (candidatesOf df).contains n then coerceFill c else c) df from rfl,
      getCol_mapCols, hget]
    show some (if (candidatesOf df).contains x then coerceFill col else col) = _
    rw [hcand]
  · constructor
    · intro hp
      have h3 := (Bool.and_eq_true _ _).mp ((Bool.and_eq_true _ _).mp hp).1
      have h4 := ((Bool.and_eq_true _ _).mp hp).2
      refine ⟨?_, of_decide_eq_true h4⟩
      have h5 : (sampleCells col).isEmpty = false := by
        cases hie : (sampleCells col).isEmpty with
        | false => rfl
        | true =>
          rw [hie] at h3
          exact Bool.noConfusion h3.2
      intro hnil
      rw [hnil] at h5
      exact Bool.noConfusion h5
    · rintro ⟨hne, hth⟩
      show (col.dtype == Dtype.object &&
        !(sampleCells col).isEmpty &&
        decide (parseCount col ≥ max 1 ((sampleCells col).length / 2))) = true
      rw [hobj]
      have h5 : (sampleCells col).isEmpty = false := by
        cases hsc : sampleCells col with
        | nil => exact absurd hsc hne
        | cons y ys => rfl
      rw [h5]
      have h6 : decide (parseCount col ≥ max 1 ((sampleCells col).length / 2)) = true :=
        decide_eq_true hth
      rw [h6]
      rfl

/-- C7 witness: the two-value column `["1", "2"]` of `dfC7w` meets every
hypothesis; both its sampled values parse, so it is promoted. -/
theorem C7_witness :
    (colNames dfC7w).Nodup ∧
      getCol dfC7w "score" = some colC7w ∧
      colC7w.dtype = Dtype.object ∧
      numericCandidatesBase.contains "score" = false ∧
      (getCol (step3 dfC7w) "score" =
          some (if promotes colC7w then coerceFill colC7w else colC7w) ∧
        (promotes colC7w = true ↔
          sampleCells colC7w ≠ [] ∧
            max 1 ((sampleCells colC7w).length / 2) ≤ parseCount colC7w)) :=
  ⟨by decide, by decide, by decide, by decide,
    C7_promotion_threshold dfC7w "score" colC7w (by decide) (by decide) (by decide)
      (by decide)⟩

theorem heapRead_append_left (h h2 : Heap) (r : Nat) (hr : r < h.length) :
    heapRead (h ++ h2) r = heapRead h r := by
  show (h ++ h2).getD r ⟨[]⟩ = h.getD r ⟨[]⟩
  rw [List.getD_eq_getElem?_getD, List.getD_eq_getElem?_getD, List.getElem?_append_left hr]

theorem heapRead_concat (h : Heap) (d : DataFrame) :
    heapRead (h ++ [d]) h.length = d := by
  show (h ++ [d]).getD h.length ⟨[]⟩ = d
  rw [List.getD_eq_getElem?_getD, List.getElem?_concat_length]
  rfl

theorem heapRead_write_self (h : Heap) (s : Nat) (d : DataFrame) (hs : s < h.length) :
    heapRead (heapWrite h s d) s = d := by
  show (h.set s d).getD s ⟨[]⟩ = d
  rw [List.getD_eq_getElem?_getD, List.getElem?_set_self hs]
  rfl

theorem heapRead_write_ne (h : Heap) (s r : Nat) (d : DataFrame) (hne : s ≠ r) :
    heapRead (heapWrite h s d) r = heapRead h r := by
  show (h.set s d).getD r ⟨[]⟩ = h.getD r ⟨[]⟩
  rw [List.getD_eq_getElem?_getD, List.getD_eq_getElem?_getD, List.getElem?_set_ne hne]

/-- C10 (confirmed): the heap-level model of `clean_data` never mutates its
argument object: the first statement allocates a fresh copy, every in-place
column assignment of steps 2, 3 and 5 writes to that copy (or to later
fresh objects), and the result reference holds exactly the value-level
`clean_data` of the original frame, which itself is left unchanged. -/
theorem C10_no_mutation (h0 : Heap) (r0 : Nat) (hr : r0 < h0.length) :
    heapRead (clean_data_prog h0 r0).2 r0 = heapRead h0 r0 ∧
      heapRead (clean_data_prog h0 r0).2 (clean_data_prog h0 r0).1 =
        clean_data (heapRead h0 r0) := by
  have e1 : heapRead (h0 ++ [heapRead h0 r0]) h0.length = heapRead h0 r0 :=
    heapRead_concat h0 _
  by_cases hU : hasCol (heapRead h0 r0) "Unnamed: 0" = true
  · simp only [clean_data_prog, heapAlloc]
    rw [e1, if_pos hU]
    dsimp only
    rw [heapRead_concat (h0 ++ [heapRead h0 r0])]
    rw [heapRead_write_self _ _ _ (by
      simp only [heapWrite, List.length_set, List.length_append, List.length_cons,
        List.length_nil]
      omega)]
    rw [heapRead_write_self _ _ _ (by
      simp only [heapWrite, List.length_set, List.length_append, List.length_cons,
        List.length_nil]
      omega)]
    rw [heapRead_concat]
    constructor
    · rw [heapRead_write_ne _ _ _ _ (by
        simp only [heapWrite, List.length_set, List.length_append, List.length_cons,
          List.length_nil]
        omega)]
      rw [heapRead_append_left _ _ _ (by
        simp only [heapWrite, List.length_set, List.length_append, List.length_cons,
          List.length_nil]
        omega)]
      rw [heapRead_write_ne _ _ _ _ (by
        simp only [heapWrite, List.length_set, List.length_append, List.length_cons,
          List.length_nil]
        omega)]
      rw [heapRead_write_ne _ _ _ _ (by
        simp only [heapWrite, List.length_set, List.length_append, List.length_cons,
          List.length_nil]
        omega)]
      rw [heapRead_append_left _ _ _ (by
        simp only [List.length_append, List.length_cons, List.length_nil]
        omega)]
      rw [heapRead_append_left _ _ _ hr]
    · rw [heapRead_write_self _ _ _ (by
        simp only [heapWrite, List.length_set, List.length_append, List.length_cons,
          List.length_nil]
        omega)]
      rfl
  · simp only [clean_data_prog, heapAlloc]
    rw [e1, if_neg hU]
    dsimp only
    rw [e1]
    rw [heapRead_write_self _ _ _ (by
      simp only [List.length_append, List.length_cons, List.length_nil]
      omega)]
    rw [heapRead_write_self _ _ _ (by
      simp only [heapWrite, List.length_set, List.length_append, List.length_cons,
        List.length_nil]
      omega)]
    rw [heapRead_concat]
    constructor
    · rw [heapRead_write_ne _ _ _ _ (by
        simp only [heapWrite, List.length_set, List.length_append, List.length_cons,
          List.length_nil]
        omega)]
      rw [heapRead_append_left _ _ _ (by
        simp only [heapWrite, List.length_set, List.length_append, List.length_cons,
          List.length_nil]
        omega)]
      rw [heapRead_write_ne _ _ _ _ (by omega)]
      rw [heapRead_write_ne _ _ _ _ (by omega)]
      rw [heapRead_append_left _ _ _ hr]
    · rw [heapRead_write_self _ _ _ (by
        simp only [heapWrite, List.length_set, List.length_append, List.length_cons,
          List.length_nil]
        omega)]
      show step5 (step4 (step3 (step2 (heapRead h0 r0)))) = _
      have hs1 : step1 (heapRead h0 r0) = heapRead h0 r0 := by
        show (if hasCol (heapRead h0 r0) "Unnamed: 0" then _ else _) = _
        rw [if_neg hU]
      show _ = step5 (step4 (step3 (step2 (step1 (heapRead h0 r0)))))
      rw [hs1]

/-- C10 witness: on a one-frame heap whose frame has an `'Unnamed: 0'`
column and a duplicated `track_id`, cleaning leaves the original object
untouched and the returned reference holds the cleaned frame. -/
theorem C10_witness :
    0 < heapC10.length ∧
      (heapRead (clean_data_prog heapC10 0).2 0 = heapRead heapC10 0 ∧
        heapRead (clean_data_prog heapC10 0).2 (clean_data_prog heapC10 0).1 =
          clean_data (heapRead heapC10 0)) :=
  ⟨by decide, C10_no_mutation heapC10 0 (by decide)⟩

end Spotify
